import Mathlib

/-!
Verification of the content-generation assistant (React/TypeScript app).

The development shallowly embeds the program's data model and logic:
* the string-valued TypeScript enums `Language`, `Framework`, `ContentPillar`,
  `Tone` from `types.ts` become inductive types with a `toStr` function giving
  their runtime string values;
* the instruction lookup functions, the brand-context block and the prompt
  template of `services/geminiService.ts` become Lean string functions
  (template-literal interpolation is string concatenation);
* the API call of `generateCopy` is parameterised by its outcome
  (`ApiOutcome`), so the `try`/`catch` and the `response.text || fallback`
  logic become a pure function into `Except`;
* the React component state of `App.tsx` becomes an `AppState` structure with
  one transition function per handler (`handleDeleteBrand`, `handleClear`,
  `handleGenerate`, and the brand-selection `useEffect` as `brandEffect`).

JavaScript string truthiness (`""` and `undefined`/`null` are falsy) is
modelled explicitly by `jsOr` and `idTruthy`.
-/

namespace CopyGen

/-- The `Language` enum of `types.ts` (`EN = 'en'`, `MY = 'my'`, `TH = 'th'`). -/
inductive Language where
  | EN | MY | TH
  deriving DecidableEq, Fintype, Repr

/-- Runtime string value of a `Language` enum member. -/
def Language.toStr : Language → String
  | .EN => "en"
  | .MY => "my"
  | .TH => "th"

/-- The `Framework` enum of `types.ts`. -/
inductive Framework where
  | AIDA | PAS | BAB | FAB | QUEST | FOUR_P | PASTOR | FREESTYLE
  deriving DecidableEq, Fintype, Repr

/-- The `ContentPillar` enum of `types.ts`. -/
inductive ContentPillar where
  | EDUCATIONAL | PROMOTIONAL | INSPIRATIONAL | ENTERTAINMENT | BEHIND_SCENES | COMMUNITY
  deriving DecidableEq, Fintype, Repr

/-- Runtime string value of a `ContentPillar` enum member
(`BEHIND_SCENES = 'BehindTheScenes'`). -/
def ContentPillar.toStr : ContentPillar → String
  | .EDUCATIONAL => "Educational"
  | .PROMOTIONAL => "Promotional"
  | .INSPIRATIONAL => "Inspirational"
  | .ENTERTAINMENT => "Entertainment"
  | .BEHIND_SCENES => "BehindTheScenes"
  | .COMMUNITY => "Community"

/-- The `Tone` enum of `types.ts`. -/
inductive Tone where
  | PROFESSIONAL | FRIENDLY | URGENT | WITTY | EMOTIONAL | LUXURY
  deriving DecidableEq, Fintype, Repr

/-- Runtime string value of a `Tone` enum member. -/
def Tone.toStr : Tone → String
  | .PROFESSIONAL => "Professional"
  | .FRIENDLY => "Friendly"
  | .URGENT => "Urgent"
  | .WITTY => "Witty"
  | .EMOTIONAL => "Emotional"
  | .LUXURY => "Luxury"

/-- The `BrandProfile` interface of `types.ts`. -/
structure BrandProfile where
  id : String
  name : String
  industry : String
  description : String
  defaultTone : Tone
  defaultAudience : String
  deriving DecidableEq, Repr

/-- The `ContentRequest` interface of `types.ts`.  The optional fields
`targetAudience?: string` and `brand?: BrandProfile` become `Option`s. -/
structure ContentRequest where
  topic : String
  description : String
  framework : Framework
  pillar : ContentPillar
  language : Language
  tone : Tone
  targetAudience : Option String
  brand : Option BrandProfile
  deriving DecidableEq, Repr

/-- JavaScript `a || b` on an optional string: `undefined` and `""` are falsy,
so both fall through to `b`. -/
def jsOr : Option String → String → String
  | none, b => b
  | some s, b => if s = "" then b else s

/-- `getFrameworkInstruction` from `services/geminiService.ts`.  The switch is
exhaustive over the enum, so its `default: return ""` arm is unreachable for
enum-typed inputs and is not represented. -/
def getFrameworkInstruction : Framework → String
  | .AIDA => "Apply the AIDA framework:\n1. Attention: Grab attention with a hook.\n2. Interest: Build interest with facts/details.\n3. Desire: Create desire by showing benefits.\n4. Action: Clear Call to Action (CTA)."
  | .PAS => "Apply the PAS framework:\n1. Problem: Identify a pain point.\n2. Agitation: Agitate the pain, make it visceral.\n3. Solution: Present the product/service as the ultimate solution."
  | .BAB => "Apply the BAB framework:\n1. Before: Describe the current negative situation.\n2. After: Describe the ideal future situation.\n3. Bridge: Show how the product gets them from Before to After."
  | .FAB => "Apply the FAB framework:\n1. Features: What it does.\n2. Advantages: Why it helps.\n3. Benefits: The underlying emotional or tangible payoff."
  | .QUEST => "Apply the QUEST framework:\n1. Qualify the audience.\n2. Understand their problem.\n3. Educate them on the solution.\n4. Stimulate desire.\n5. Transition to action."
  | .FOUR_P => "Apply the 4 Ps framework:\n1. Promise: Make a bold claim or promise about what the product does.\n2. Picture: Paint a vivid visual picture of the user enjoying the benefits.\n3. Proof: Provide evidence (social proof, facts, logic) that the promise is true.\n4. Push: A strong call to action."
  | .PASTOR => "Apply the PASTOR framework:\n1. Problem: Describe the problem.\n2. Amplify: Amplify the consequences of not solving it.\n3. Story: Tell a story related to the solution.\n4. Transformation: Describe the transformation.\n5. Offer: Describe exactly what you are offering.\n6. Response: Ask for a response (CTA)."
  | .FREESTYLE => "Create engaging, high-quality content optimized for social media or blogs. Use short paragraphs, emojis where appropriate, and a compelling structure."

/-- `getLanguageInstruction` from `services/geminiService.ts`, on enum members.
The `EN` case and the `default` arm of the switch share the English body. -/
def getLanguageInstruction : Language → String
  | .MY => "Write the response in Myanmar (Burmese) language. Ensure the font encoding is standard Unicode. Use natural, flowing Burmese appropriate for marketing. Do NOT just transliterate English idioms, adapt them culturally."
  | .TH => "Write the response in Thai language. Use polite and persuasive Thai appropriate for marketing contexts."
  | .EN => "Write the response in English."

/-- `getLanguageInstruction` as executed at runtime: TypeScript enums are
strings at runtime, so the switch compares the incoming value against the
enum member strings and falls through to the `default` arm (English) for any
other string. -/
def getLanguageInstructionOfString (s : String) : String :=
  if s = Language.toStr Language.MY then getLanguageInstruction Language.MY
  else if s = Language.toStr Language.TH then getLanguageInstruction Language.TH
  else getLanguageInstruction Language.EN

/-- On enum members the runtime switch agrees with the enum-level function. -/
theorem getLanguageInstructionOfString_toStr (l : Language) :
    getLanguageInstructionOfString (Language.toStr l) = getLanguageInstruction l := by
  cases l <;> rfl

/-- `getPillarInstruction` from `services/geminiService.ts`; its
`default: return ""` arm is likewise unreachable for enum-typed inputs. -/
def getPillarInstruction : ContentPillar → String
  | .EDUCATIONAL => "Focus on teaching the audience something valuable. Use a helpful, authoritative voice. Include tips or steps."
  | .PROMOTIONAL => "Focus on conversion and sales. Highlight offers, scarcity, and value proposition."
  | .INSPIRATIONAL => "Focus on storytelling and motivation. Connect on an emotional level."
  | .ENTERTAINMENT => "Focus on engagement. Be lighthearted, relatable, or humorous."
  | .BEHIND_SCENES => "Focus on authenticity. Show the process, the people, or the 'why' behind the product."
  | .COMMUNITY => "Focus on social proof and belonging. Highlight user experiences or testimonials."

/-- The `systemInstruction` template literal of `generateCopy`. -/
def systemInstruction : String :=
  "You are a world-class copywriter and content strategist.\nYour goal is to write persuasive, high-converting marketing copy.\nYou are fluent in English, Myanmar, and Thai.\nAlways format the output using Markdown (headers, bullet points, bold text).\nDo not explain the framework, just use it to structure the content."

/-- The `brandContext` block of `generateCopy`: a template literal when a
brand is present, a fixed placeholder otherwise. -/
def brandContext : Option BrandProfile → String
  | some brand =>
      "\n    BRAND IDENTITY:\n    - Brand Name: " ++ (brand.name ++
      ("\n    - Industry: " ++ (brand.industry ++
      ("\n    - Brand Story/Context: " ++ (brand.description ++
      ("\n    - Standard Audience: " ++ (brand.defaultAudience ++ "\n    ")))))))
  | none => "BRAND IDENTITY: Generic / Not specified"

/-- The audience interpolation
`targetAudience || brand?.defaultAudience || "General Audience"` of the
prompt template: JavaScript `||` falls through on `undefined` and `""`. -/
def resolvedAudience (r : ContentRequest) : String :=
  jsOr r.targetAudience (jsOr (r.brand.map BrandProfile.defaultAudience) "General Audience")

/-- The `prompt` template literal of `generateCopy`, with interpolation
written as (right-nested) concatenation.  Whitespace (two-space indentation,
blank lines of two spaces) is reproduced exactly from the source. -/
def prompt (r : ContentRequest) : String :=
  "\n  " ++ (brandContext r.brand ++
  ("\n\n  CONTENT REQUEST:\n  Product/Topic: " ++ (r.topic ++
  ("\n  Additional Context/Details: " ++ (r.description ++
  ("\n  " ++ ("Target Audience: " ++ (resolvedAudience r ++
  ("\n  Tone of Voice: " ++ (Tone.toStr r.tone ++
  ("\n  Content Pillar/Theme: " ++ (ContentPillar.toStr r.pillar ++
  ("\n  \n  TASK:\n  " ++ (getFrameworkInstruction r.framework ++
  ("\n  \n  CONTENT FOCUS (Pillar):\n  " ++ (getPillarInstruction r.pillar ++
  ("\n  \n  LANGUAGE REQUIREMENT:\n  " ++ (getLanguageInstruction r.language ++
  ("\n  \n  IMPORTANT RULES:\n  - Make it creative and engaging.\n  - If using Myanmar language, ensure it reads naturally to native speakers, not like a machine translation.\n  - Use appropriate emojis for the " ++ (Tone.toStr r.tone ++
  (" tone and " ++ (ContentPillar.toStr r.pillar ++
  " theme.\n  - Ensure the content aligns with the Brand Identity provided above.\n  "))))))))))))))))))))))

/-- Outcome of the call `ai.models.generateContent(...)`: either it resolves,
with `response.text` possibly absent (`none`) or any string, or it throws. -/
inductive ApiOutcome where
  | success (text : Option String)
  | failure (message : String)

/-- `generateCopy` from `services/geminiService.ts`, parameterised by the
behaviour `api` of the hosted endpoint, which receives the system instruction
and the assembled `prompt r` and either resolves or throws.  On success it
returns `response.text || "Sorry, I couldn't generate the content at this
time."`; any thrown error is caught (and logged, a side effect not modelled)
and re-thrown as the one generic `Error` message. -/
def generateCopy (r : ContentRequest) (api : String → String → ApiOutcome) :
    Except String String :=
  match api systemInstruction (prompt r) with
  | .success text => .ok (jsOr text "Sorry, I couldn't generate the content at this time.")
  | .failure _ => .error "Failed to generate content. Please check your connection or API key."

/-- The component state of `App.tsx` relevant to the verified behaviour. -/
structure AppState where
  loading : Bool
  generatedContent : Option String
  brands : List BrandProfile
  selectedBrandId : Option String
  formData : ContentRequest
  deriving DecidableEq, Repr

/-- JavaScript truthiness of `selectedBrandId : string | null`:
`null` and `""` are falsy. -/
def idTruthy : Option String → Bool
  | none => false
  | some s => s != ""

/-- First demo brand of `DEFAULT_BRANDS` in `constants.ts`. -/
def technovaBrand : BrandProfile :=
  { id := "demo-1", name := "TechNova", industry := "Consumer Electronics",
    description := "Innovative gadgets for the modern lifestyle. High-tech meets minimal design.",
    defaultTone := Tone.WITTY,
    defaultAudience := "Tech enthusiasts, Early adopters, Ages 18-35" }

/-- Second demo brand of `DEFAULT_BRANDS` in `constants.ts`. -/
def greenleafBrand : BrandProfile :=
  { id := "demo-2", name := "GreenLeaf Organics", industry := "Health & Wellness",
    description := "100% organic supplements and superfoods sourced sustainably.",
    defaultTone := Tone.FRIENDLY,
    defaultAudience := "Health-conscious individuals, Eco-friendly consumers" }

/-- `DEFAULT_BRANDS` from `constants.ts`. -/
def DEFAULT_BRANDS : List BrandProfile := [technovaBrand, greenleafBrand]

/-- The initial `formData` of `App.tsx` (`useState<ContentRequest>({...})`). -/
def initialRequest : ContentRequest :=
  { topic := "", description := "", framework := Framework.AIDA,
    pillar := ContentPillar.PROMOTIONAL, language := Language.EN,
    tone := Tone.PROFESSIONAL, targetAudience := some "", brand := none }

/-- The initial component state of `App.tsx`. -/
def initialState : AppState :=
  { loading := false, generatedContent := none, brands := DEFAULT_BRANDS,
    selectedBrandId := none, formData := initialRequest }

/-- The brand-change `useEffect` of `App.tsx`: when `selectedBrandId` is
truthy and found in `brands`, copy the brand's default tone and audience into
`formData` and attach the brand object; when it is truthy but not found, do
nothing; otherwise only detach the brand object (`brand: undefined`). -/
def brandEffect (s : AppState) : AppState :=
  match s.selectedBrandId with
  | some id =>
      if id = "" then { s with formData := { s.formData with brand := none } }
      else
        match s.brands.find? (fun b => b.id == id) with
        | some brand =>
            { s with formData :=
                { s.formData with tone := brand.defaultTone,
                                  targetAudience := some brand.defaultAudience,
                                  brand := some brand } }
        | none => s
  | none => { s with formData := { s.formData with brand := none } }

/-- `handleAddBrand` of `App.tsx`: append and auto-select. -/
def handleAddBrand (s : AppState) (newBrand : BrandProfile) : AppState :=
  { s with brands := s.brands ++ [newBrand], selectedBrandId := some newBrand.id }

/-- `handleDeleteBrand` of `App.tsx`: filter the brand out of the list and, if
it was the selected one, clear the selection. -/
def handleDeleteBrand (s : AppState) (brandId : String) : AppState :=
  let s1 := { s with brands := s.brands.filter (fun b => b.id != brandId) }
  if s1.selectedBrandId = some brandId then { s1 with selectedBrandId := none } else s1

/-- Selecting a brand in the UI sets `selectedBrandId`, which triggers the
brand-change effect on the next state update. -/
def selectBrand (s : AppState) (id : String) : AppState :=
  brandEffect { s with selectedBrandId := some id }

/-- `handleGenerate` of `App.tsx`, parameterised by the API outcome.  It sets
`loading`, clears the previous output, awaits `generateCopy`, stores the
result or alerts `"Something went wrong. Please try again."` on error, and
finally resets `loading`.  Returns the settled state together with the alert
message shown, if any. -/
def handleGenerate (s : AppState) (api : String → String → ApiOutcome) :
    AppState × Option String :=
  match generateCopy s.formData api with
  | .ok result => ({ s with loading := false, generatedContent := some result }, none)
  | .error _ =>
      ({ s with loading := false, generatedContent := none },
       some "Something went wrong. Please try again.")

/-- `handleClear` of `App.tsx`: clear the output, reset topic and
description, and reset `targetAudience` only when `selectedBrandId` is falsy
(`selectedBrandId ? prev.targetAudience : ''`). -/
def handleClear (s : AppState) : AppState :=
  { s with generatedContent := none,
           formData := { s.formData with
             topic := "", description := "",
             targetAudience :=
               if idTruthy s.selectedBrandId then s.formData.targetAudience else some "" } }

/-- `chStartsWith n h` decides whether the character list `n` is a leading
block of `h`. -/
def chStartsWith : List Char → List Char → Bool
  | [], _ => true
  | _ :: _, [] => false
  | c :: cs, d :: ds => c == d && chStartsWith cs ds

/-- `chOccurs n h` decides whether the character list `n` occurs contiguously
anywhere inside `h`. -/
def chOccurs (needle : List Char) : List Char → Bool
  | [] => chStartsWith needle []
  | d :: ds => chStartsWith needle (d :: ds) || chOccurs needle ds

/-- `strContains hay needle` decides whether `needle` is a contiguous
substring of `hay`. -/
def strContains (hay needle : String) : Bool := chOccurs needle.data hay.data

theorem chStartsWith_append : ∀ (a b : List Char), chStartsWith a (a ++ b) = true
  | [], _ => rfl
  | c :: cs, b => by
      show (c == c && chStartsWith cs (cs ++ b)) = true
      rw [chStartsWith_append cs b]
      simp

theorem chStartsWith_append2 : ∀ (a b c : List Char), chStartsWith (a ++ b) (a ++ (b ++ c)) = true
  | [], b, c => chStartsWith_append b c
  | d :: a, b, c => by
      show (d == d && chStartsWith (a ++ b) (a ++ (b ++ c))) = true
      rw [chStartsWith_append2 a b c]
      simp

theorem chOccurs_of_startsWith (n h : List Char) (hs : chStartsWith n h = true) :
    chOccurs n h = true := by
  cases h with
  | nil => exact hs
  | cons d t =>
      show (chStartsWith n (d :: t) || chOccurs n t) = true
      rw [hs]
      simp

theorem chOccurs_append_left (n : List Char) :
    ∀ (p h : List Char), chOccurs n h = true → chOccurs n (p ++ h) = true
  | [], _, hh => hh
  | d :: p, h, hh => by
      show (chStartsWith n (d :: (p ++ h)) || chOccurs n (p ++ h)) = true
      rw [chOccurs_append_left n p h hh]
      simp

/-- A string is a substring of itself followed by anything. -/
theorem strContains_self_append (b c : String) : strContains (b ++ c) b = true := by
  show chOccurs b.data (b.data ++ c.data) = true
  exact chOccurs_of_startsWith _ _ (chStartsWith_append b.data c.data)

/-- A two-block needle is found at the matching two-block position. -/
theorem strContains_pair (a b c : String) : strContains (a ++ (b ++ c)) (a ++ b) = true := by
  show chOccurs (a.data ++ b.data) (a.data ++ (b.data ++ c.data)) = true
  exact chOccurs_of_startsWith _ _ (chStartsWith_append2 a.data b.data c.data)

/-- Substring occurrence is preserved by prepending. -/
theorem strContains_extend (s t n : String) (h : strContains t n = true) :
    strContains (s ++ t) n = true := by
  show chOccurs n.data (s.data ++ t.data) = true
  exact chOccurs_append_left n.data s.data t.data h

set_option maxRecDepth 40000 in
/-- C1: for every request the assembled prompt contains the instructional
fragment of the request's framework, and, at the form request with framework
`f`, the prompt contains no other framework's instructional fragment. -/
theorem framework_fragment_exclusive :
    (∀ r : ContentRequest,
      strContains (prompt r) (getFrameworkInstruction r.framework) = true) ∧
    (∀ f g : Framework, g ≠ f →
      strContains (prompt { initialRequest with framework := f })
        (getFrameworkInstruction g) = false) := by
  constructor
  · intro r
    unfold prompt
    repeat first
      | exact strContains_self_append _ _
      | apply strContains_extend
  · decide

/-- Witness for C1 at `f = PAS`, `g = AIDA`. -/
theorem framework_fragment_exclusive_witness :
    strContains (prompt { initialRequest with framework := Framework.PAS })
      (getFrameworkInstruction Framework.PAS) = true ∧
    strContains (prompt { initialRequest with framework := Framework.PAS })
      (getFrameworkInstruction Framework.AIDA) = false :=
  ⟨framework_fragment_exclusive.1 { initialRequest with framework := Framework.PAS },
   framework_fragment_exclusive.2 Framework.PAS Framework.AIDA (by decide)⟩

set_option maxRecDepth 40000 in
/-- C2: for every request the assembled prompt contains the instructional
fragment of the request's content pillar, and, at the form request with
pillar `p`, the prompt contains no other pillar's instructional fragment. -/
theorem pillar_fragment_exclusive :
    (∀ r : ContentRequest,
      strContains (prompt r) (getPillarInstruction r.pillar) = true) ∧
    (∀ p q : ContentPillar, q ≠ p →
      strContains (prompt { initialRequest with pillar := p })
        (getPillarInstruction q) = false) := by
  constructor
  · intro r
    unfold prompt
    repeat first
      | exact strContains_self_append _ _
      | apply strContains_extend
  · decide

/-- Witness for C2 at `p = EDUCATIONAL`, `q = PROMOTIONAL`. -/
theorem pillar_fragment_exclusive_witness :
    strContains (prompt { initialRequest with pillar := ContentPillar.EDUCATIONAL })
      (getPillarInstruction ContentPillar.EDUCATIONAL) = true ∧
    strContains (prompt { initialRequest with pillar := ContentPillar.EDUCATIONAL })
      (getPillarInstruction ContentPillar.PROMOTIONAL) = false :=
  ⟨pillar_fragment_exclusive.1 { initialRequest with pillar := ContentPillar.EDUCATIONAL },
   pillar_fragment_exclusive.2 ContentPillar.EDUCATIONAL ContentPillar.PROMOTIONAL (by decide)⟩

set_option maxRecDepth 40000 in
/-- C3: for every request the assembled prompt contains the language
instruction of the request's language; at the form request with language `l`
it contains neither of the other two language instructions; and the runtime
switch maps any string that is not one of the three supported enum values
(`"en"`, `"my"`, `"th"`) to the English instruction. -/
theorem language_instruction_resolution :
    (∀ r : ContentRequest,
      strContains (prompt r) (getLanguageInstruction r.language) = true) ∧
    (∀ l m : Language, m ≠ l →
      strContains (prompt { initialRequest with language := l })
        (getLanguageInstruction m) = false) ∧
    (∀ s : String, s ≠ "en" → s ≠ "my" → s ≠ "th" →
      getLanguageInstructionOfString s = getLanguageInstruction Language.EN) := by
  refine ⟨?_, ?_, ?_⟩
  · intro r
    unfold prompt
    repeat first
      | exact strContains_self_append _ _
      | apply strContains_extend
  · decide
  · intro s _h1 h2 h3
    show (if s = "my" then getLanguageInstruction Language.MY
          else if s = "th" then getLanguageInstruction Language.TH
          else getLanguageInstruction Language.EN) = getLanguageInstruction Language.EN
    rw [if_neg h2, if_neg h3]

/-- Witness for C3 at `l = MY`, `m = EN`, and the unsupported value `"fr"`. -/
theorem language_instruction_resolution_witness :
    strContains (prompt { initialRequest with language := Language.MY })
      (getLanguageInstruction Language.EN) = false ∧
    getLanguageInstructionOfString "fr" = getLanguageInstruction Language.EN :=
  ⟨language_instruction_resolution.2.1 Language.MY Language.EN (by decide),
   language_instruction_resolution.2.2 "fr" (by decide) (by decide) (by decide)⟩

/-- C4: the assembled prompt contains the Target Audience line with the
resolved audience, and the resolution is: the brand's default audience when
`targetAudience` is empty and a brand with a non-empty default audience is
attached; the fixed string `"General Audience"` when `targetAudience` is
empty and there is no brand (or its default audience is also empty); and
`targetAudience` itself otherwise. -/
theorem target_audience_resolution (r : ContentRequest) :
    strContains (prompt r) ("Target Audience: " ++ resolvedAudience r) = true ∧
    ((r.targetAudience = none ∨ r.targetAudience = some "") →
      ∀ b : BrandProfile, r.brand = some b → b.defaultAudience ≠ "" →
        resolvedAudience r = b.defaultAudience) ∧
    ((r.targetAudience = none ∨ r.targetAudience = some "") → r.brand = none →
      resolvedAudience r = "General Audience") ∧
    ((r.targetAudience = none ∨ r.targetAudience = some "") →
      ∀ b : BrandProfile, r.brand = some b → b.defaultAudience = "" →
        resolvedAudience r = "General Audience") ∧
    (∀ t : String, r.targetAudience = some t → t ≠ "" → resolvedAudience r = t) := by
  refine ⟨?_, ?_, ?_, ?_, ?_⟩
  · unfold prompt
    repeat first
      | exact strContains_pair _ _ _
      | apply strContains_extend
  · rintro (h | h) b hb hne <;> simp [resolvedAudience, jsOr, h, hb, hne]
  · rintro (h | h) hb <;> simp [resolvedAudience, jsOr, h, hb]
  · rintro (h | h) b hb he <;> simp [resolvedAudience, jsOr, h, hb, he]
  · intro t ht hne
    simp [resolvedAudience, jsOr, ht, hne]

/-- Witness for C4: empty audience with the TechNova brand resolves to its
default audience; empty audience without a brand resolves to the fallback. -/
theorem target_audience_resolution_witness :
    resolvedAudience { initialRequest with brand := some technovaBrand } =
      "Tech enthusiasts, Early adopters, Ages 18-35" ∧
    resolvedAudience initialRequest = "General Audience" :=
  ⟨(target_audience_resolution { initialRequest with brand := some technovaBrand }).2.1
      (Or.inr rfl) technovaBrand rfl (by decide),
   (target_audience_resolution initialRequest).2.2.1 (Or.inr rfl) rfl⟩

/-- The state after selecting the first demo brand from the initial state and
letting the brand-change effect run. -/
def afterSelectTechnova : AppState :=
  brandEffect { initialState with selectedBrandId := some "demo-1" }

/-- C5 counterexample: deleting the selected brand `demo-1` and running the
next state update clears the selection and detaches the brand object, but the
brand-derived tone (`WITTY`) and target audience remain in `formData` instead
of being removed (the pre-selection tone was `PROFESSIONAL`). -/
theorem brand_delete_keeps_overrides_counterexample :
    (brandEffect (handleDeleteBrand afterSelectTechnova "demo-1")).selectedBrandId = none ∧
    (brandEffect (handleDeleteBrand afterSelectTechnova "demo-1")).brands = [greenleafBrand] ∧
    (brandEffect (handleDeleteBrand afterSelectTechnova "demo-1")).formData.brand = none ∧
    (brandEffect (handleDeleteBrand afterSelectTechnova "demo-1")).formData.tone = Tone.WITTY ∧
    (brandEffect (handleDeleteBrand afterSelectTechnova "demo-1")).formData.targetAudience =
      some "Tech enthusiasts, Early adopters, Ages 18-35" ∧
    initialRequest.tone = Tone.PROFESSIONAL ∧ Tone.WITTY ≠ Tone.PROFESSIONAL := by
  decide

/-- C5 amended: deleting the currently selected brand removes it from the
list and clears the selection, and the next state update detaches the brand
object from the active request while leaving the tone and target audience
values (including any brand-derived ones) unchanged. -/
theorem brand_delete_detaches_only (s : AppState) (id : String)
    (hsel : s.selectedBrandId = some id) :
    (brandEffect (handleDeleteBrand s id)).brands = s.brands.filter (fun b => b.id != id) ∧
    (brandEffect (handleDeleteBrand s id)).selectedBrandId = none ∧
    (brandEffect (handleDeleteBrand s id)).formData.brand = none ∧
    (brandEffect (handleDeleteBrand s id)).formData.tone = s.formData.tone ∧
    (brandEffect (handleDeleteBrand s id)).formData.targetAudience = s.formData.targetAudience := by
  simp [handleDeleteBrand, brandEffect, hsel]

/-- Witness for the amended C5 at the concrete post-selection state. -/
theorem brand_delete_detaches_only_witness :
    (brandEffect (handleDeleteBrand afterSelectTechnova "demo-1")).formData.tone =
      afterSelectTechnova.formData.tone ∧
    (brandEffect (handleDeleteBrand afterSelectTechnova "demo-1")).selectedBrandId = none := by
  have h := brand_delete_detaches_only afterSelectTechnova "demo-1" (by decide)
  exact ⟨h.2.2.2.1, h.2.1⟩

/-- C6: whenever the API call throws, `generateCopy` yields the one generic
error message (independent of the thrown error), `handleGenerate` settles
with the one generic alert, the form data is unchanged for retry, and the
loading flag is back to `false`. -/
theorem generate_failure_generic (s : AppState) (err : String) :
    generateCopy s.formData (fun _ _ => ApiOutcome.failure err) =
      Except.error "Failed to generate content. Please check your connection or API key." ∧
    handleGenerate s (fun _ _ => ApiOutcome.failure err) =
      ({ s with loading := false, generatedContent := none },
       some "Something went wrong. Please try again.") ∧
    (handleGenerate s (fun _ _ => ApiOutcome.failure err)).1.formData = s.formData ∧
    (handleGenerate s (fun _ _ => ApiOutcome.failure err)).1.loading = false :=
  ⟨rfl, rfl, rfl, rfl⟩

/-- C7: when the API call succeeds, `generateCopy` returns the response text,
or the fixed fallback string when the text is empty or absent, and never an
error. -/
theorem generate_success_fallback (r : ContentRequest) (t : String) :
    (t ≠ "" →
      generateCopy r (fun _ _ => ApiOutcome.success (some t)) = Except.ok t) ∧
    generateCopy r (fun _ _ => ApiOutcome.success (some "")) =
      Except.ok "Sorry, I couldn't generate the content at this time." ∧
    generateCopy r (fun _ _ => ApiOutcome.success none) =
      Except.ok "Sorry, I couldn't generate the content at this time." ∧
    (∀ o : Option String, ∃ out : String,
      generateCopy r (fun _ _ => ApiOutcome.success o) = Except.ok out) := by
  refine ⟨?_, rfl, rfl, ?_⟩
  · intro h
    simp [generateCopy, jsOr, h]
  · intro o
    exact ⟨jsOr o "Sorry, I couldn't generate the content at this time.", rfl⟩

/-- Witness for C7 with a non-empty response text. -/
theorem generate_success_fallback_witness :
    generateCopy initialRequest (fun _ _ => ApiOutcome.success (some "Great copy!")) =
      Except.ok "Great copy!" :=
  (generate_success_fallback initialRequest "Great copy!").1 (by decide)

/-- C8: selecting a brand that is present in the list overwrites the tone and
target audience of the current request with the brand's defaults and attaches
the brand object, while the brands list itself is unchanged. -/
theorem select_brand_applies_defaults (s : AppState) (id : String) (b : BrandProfile)
    (hid : id ≠ "") (hfind : s.brands.find? (fun x => x.id == id) = some b) :
    (selectBrand s id).formData.tone = b.defaultTone ∧
    (selectBrand s id).formData.targetAudience = some b.defaultAudience ∧
    (selectBrand s id).formData.brand = some b ∧
    (selectBrand s id).brands = s.brands := by
  simp [selectBrand, brandEffect, hid, hfind]

/-- Witness for C8: selecting the GreenLeaf demo brand. -/
theorem select_brand_applies_defaults_witness :
    (selectBrand initialState "demo-2").formData.tone = Tone.FRIENDLY ∧
    (selectBrand initialState "demo-2").formData.brand = some greenleafBrand := by
  have h := select_brand_applies_defaults initialState "demo-2" greenleafBrand
    (by decide) (by decide)
  exact ⟨h.1, h.2.2.1⟩

/-- C9: `handleClear` empties topic and description, clears the generated
content, leaves the brand list and the selection untouched, and resets the
target audience to empty exactly when the brand selection is falsy (keeping
it when a brand is selected). -/
theorem clear_resets_form (s : AppState) :
    (handleClear s).formData.topic = "" ∧
    (handleClear s).formData.description = "" ∧
    (handleClear s).generatedContent = none ∧
    (handleClear s).brands = s.brands ∧
    (handleClear s).selectedBrandId = s.selectedBrandId ∧
    (handleClear s).formData.targetAudience =
      (if idTruthy s.selectedBrandId then s.formData.targetAudience else some "") :=
  ⟨rfl, rfl, rfl, rfl, rfl, rfl⟩

/-- C10: `handleClear` leaves the framework, pillar, language and tone fields
of the request unchanged (and likewise the attached brand object and the
loading flag); only topic, description, target audience and the generated
output can be affected. -/
theorem clear_preserves_other_fields (s : AppState) :
    (handleClear s).formData.framework = s.formData.framework ∧
    (handleClear s).formData.pillar = s.formData.pillar ∧
    (handleClear s).formData.language = s.formData.language ∧
    (handleClear s).formData.tone = s.formData.tone ∧
    (handleClear s).formData.brand = s.formData.brand ∧
    (handleClear s).loading = s.loading :=
  ⟨rfl, rfl, rfl, rfl, rfl, rfl⟩

end CopyGen
